import Mathlib

/-!
Shallow embedding of the matchbot daily pipeline (src/run_daily.py) and
verification of its specification claims.

Modelling conventions:
* Python floats are modelled by real numbers (exact arithmetic); league-table
  arithmetic, which only uses field operations on numerals, is modelled by
  rationals so that it stays decidable.
* Python datetimes are modelled by a calendar record (DT) together with a
  translation to seconds since the Unix epoch; all datetimes in the program
  are UTC-aware, so comparisons and timedelta arithmetic become integer
  arithmetic on epoch seconds.
* Missing values (dict.get returning None) are modelled with Option.
* Network fetches are modelled by an environment record holding the provider
  responses; the collector is a pure function of that environment.
-/

namespace RunDaily

/-- The whitespace characters stripped by Python str.strip (ASCII range). -/
def isSpaceChar (c : Char) : Bool :=
  c = ' ' || c = '\t' || c = '\n' || c = '\r' || c = '\x0b' || c = '\x0c'

/-- Strip leading and trailing whitespace from a char list. -/
def stripChars (l : List Char) : List Char :=
  ((l.dropWhile isSpaceChar).reverse.dropWhile isSpaceChar).reverse

/-- ASCII lowercase of one character (Python str.lower on the ASCII inputs
this program compares). -/
def lowerChar (c : Char) : Char :=
  if 'A' ≤ c ∧ c ≤ 'Z' then Char.ofNat (c.toNat + 32) else c

/-- Python helper norm (run_daily.py line 113): strip then lowercase. -/
def norm (s : String) : String := String.mk ((stripChars s.data).map lowerChar)

/-- Greedy run of decimal digits taken from the front of a char list. -/
def takeDigitsList : List Char → List Char × List Char
  | [] => ([], [])
  | c :: cs =>
    if c.isDigit then
      let p := takeDigitsList cs
      (c :: p.1, p.2)
    else ([], c :: cs)

/-- Value of a single decimal digit character. -/
def digitVal (c : Char) : Nat := c.toNat - '0'.toNat

/-- Value of a list of decimal digit characters, most significant first. -/
def digitsToNat (l : List Char) : Nat := l.foldl (fun a c => a * 10 + digitVal c) 0

/-- Model of Python int(float(s)) on a numeric string: optional sign, integer
digits, optional fractional part; truncation toward zero. Returns none when
the string is not of this shape (float() raising). -/
def parsePyNumber (s : String) : Option Int :=
  let l0 := stripChars s.data
  let sgn : Int := match l0 with
    | '-' :: _ => -1
    | _ => 1
  let l1 : List Char := match l0 with
    | '-' :: rest => rest
    | '+' :: rest => rest
    | _ => l0
  let p := takeDigitsList l1
  match p.2 with
  | [] => if p.1 = [] then none else some (sgn * (digitsToNat p.1 : Int))
  | '.' :: rest =>
    let q := takeDigitsList rest
    if q.2 = [] ∧ (p.1 ≠ [] ∨ q.1 ≠ []) then some (sgn * (digitsToNat p.1 : Int)) else none
  | _ => none

/-- safe_int (run_daily.py lines 95-101): None or empty become 0, numeric
strings are truncated to an integer, anything unparseable becomes 0. -/
def safe_int (x : Option String) : Int :=
  match x with
  | none => 0
  | some s => if s = "" then 0 else (parsePyNumber s).getD 0

/-- Gregorian leap year test (Python datetime uses the proleptic Gregorian
calendar). -/
def isLeap (y : Nat) : Bool := y % 4 = 0 && (y % 100 != 0 || y % 400 = 0)

/-- Number of days of month m in year y. -/
def daysInMonth (y m : Nat) : Nat :=
  if m = 2 then (if isLeap y then 29 else 28)
  else if m = 4 ∨ m = 6 ∨ m = 9 ∨ m = 11 then 30
  else 31

/-- Days from 1970-01-01 to the given civil date (standard civil-from-days
algorithm, valid for year at least 1). -/
def days_from_civil (y m d : Nat) : Int :=
  let yi : Int := if m ≤ 2 then (y : Int) - 1 else (y : Int)
  let era : Int := yi / 400
  let yoe : Int := yi - era * 400
  let mp : Int := if 2 < m then (m : Int) - 3 else (m : Int) + 9
  let doy : Int := (153 * mp + 2) / 5 + (d : Int) - 1
  let doe : Int := yoe * 365 + yoe / 4 - yoe / 100 + doy
  era * 146097 + doe - 719468

/-- Inverse of days_from_civil: civil date of a day count from 1970-01-01. -/
def civil_from_days (z0 : Int) : Nat × Nat × Nat :=
  let z := z0 + 719468
  let era : Int := (if 0 ≤ z then z else z - 146096) / 146097
  let doe : Int := z - era * 146097
  let yoe : Int := (doe - doe / 1460 + doe / 36524 - doe / 146096) / 365
  let y : Int := yoe + era * 400
  let doy : Int := doe - (365 * yoe + yoe / 4 - yoe / 100)
  let mp : Int := (5 * doy + 2) / 153
  let d : Int := doy - (153 * mp + 2) / 5 + 1
  let m : Int := if mp < 10 then mp + 3 else mp - 9
  let y2 : Int := if m ≤ 2 then y + 1 else y
  (y2.toNat, m.toNat, d.toNat)

/-- A parsed UTC datetime (the result of datetime.strptime plus UTC.localize). -/
structure DT where
  year : Nat
  month : Nat
  day : Nat
  hour : Nat
  minute : Nat
  second : Nat
deriving DecidableEq

/-- Seconds since the Unix epoch of a UTC datetime; datetime comparison and
timedelta arithmetic on UTC-aware datetimes coincide with integer arithmetic
on this value. -/
def DT.toSecs (t : DT) : Int :=
  days_from_civil t.year t.month t.day * 86400 +
    (t.hour : Int) * 3600 + (t.minute : Int) * 60 + (t.second : Int)

/-- Greedy run of at most max digits from the front of a char list (models
the bounded digit groups of the strptime regular expressions). -/
def takeDigitsUpTo : Nat → List Char → List Char × List Char
  | 0, l => ([], l)
  | _ + 1, [] => ([], [])
  | n + 1, c :: cs =>
    if c.isDigit then
      let p := takeDigitsUpTo n cs
      (c :: p.1, p.2)
    else ([], c :: cs)

/-- Exactly k digits (strptime directive %Y uses k = 4). -/
def parseFixedDigits (k : Nat) (l : List Char) : Option (Nat × List Char) :=
  let p := takeDigitsUpTo k l
  if p.1.length = k then some (digitsToNat p.1, p.2) else none

/-- One or two digits (strptime directives %m, %d, %H, %M, %S). -/
def parseDigits12 (l : List Char) : Option (Nat × List Char) :=
  let p := takeDigitsUpTo 2 l
  if p.1 = [] then none else some (digitsToNat p.1, p.2)

/-- Consume one expected literal character. -/
def expectChar (c : Char) : List Char → Option (List Char)
  | [] => none
  | x :: xs => if x = c then some xs else none

/-- The date part of the formats: %Y-%m-%d. -/
def parseYMD (l : List Char) : Option ((Nat × Nat × Nat) × List Char) := do
  let (y, r1) ← parseFixedDigits 4 l
  let r2 ← expectChar '-' r1
  let (m, r3) ← parseDigits12 r2
  let r4 ← expectChar '-' r3
  let (d, r5) ← parseDigits12 r4
  pure ((y, m, d), r5)

/-- Field validation performed by the datetime constructor after strptime
matching. -/
def validDT (y m d h mi s : Nat) : Bool :=
  decide (1 ≤ y ∧ 1 ≤ m ∧ m ≤ 12 ∧ 1 ≤ d ∧ d ≤ daysInMonth y m ∧
    h ≤ 23 ∧ mi ≤ 59 ∧ s ≤ 59)

/-- datetime.strptime on format %Y-%m-%d %H:%M:%S (withSec = true) or
%Y-%m-%d %H:%M (withSec = false): the whole string must be consumed and the
fields must form a valid datetime. -/
def strptime_ymd_time (withSec : Bool) (s : String) : Option DT := do
  let ((y, m, d), r1) ← parseYMD s.data
  let r2 ← expectChar ' ' r1
  let (h, r3) ← parseDigits12 r2
  let r4 ← expectChar ':' r3
  let (mi, r5) ← parseDigits12 r4
  let (sec, r7) ←
    (if withSec then do
      let r6 ← expectChar ':' r5
      parseDigits12 r6
    else pure (0, r5))
  if r7.isEmpty && validDT y m d h mi sec then
    pure ⟨y, m, d, h, mi, sec⟩
  else none

/-- parse_event_dt_utc (run_daily.py lines 117-138): reject an absent or
empty date; default an absent or empty time to midnight; try the seconds
format first and fall back to the minutes format; localize to UTC (a no-op
on the calendar fields). -/
def parse_event_dt_utc (date_str time_str : Option String) : Option DT :=
  let ds := date_str.getD ""
  if ds = "" then none
  else
    let ts0 := time_str.getD ""
    let ts := if ts0 = "" then "00:00:00" else ts0
    let s := ds ++ " " ++ ts
    match strptime_ymd_time true s with
    | some dt => some dt
    | none => strptime_ymd_time false s

/-- Module-level constant HOME_ADV_ELO = 55 (run_daily.py line 36). -/
def HOME_ADV_ELO : ℝ := 55

/-- Module-level constant DRAW_BASE = 0.24 (run_daily.py line 37). -/
noncomputable def DRAW_BASE : ℝ := 0.24

/-- Module-level constant DRAW_TIGHTNESS = 260.0 (run_daily.py line 38). -/
def DRAW_TIGHTNESS : ℝ := 260.0

/-- Module-level constant LIVE_GRACE_MINUTES = 120 (run_daily.py line 43). -/
def LIVE_GRACE_MINUTES : Int := 120

/-- Module-level constant RESULTS_LOOKBACK_HOURS = 36 (run_daily.py line 46). -/
def RESULTS_LOOKBACK_HOURS : Int := 36

/-- win_prob_from_elo (run_daily.py lines 142-143). -/
noncomputable def win_prob_from_elo (elo_a elo_b : ℝ) : ℝ :=
  1.0 / (1.0 + (10.0 : ℝ) ^ ((elo_b - elo_a) / 400.0))

/-- probs_1x2 (run_daily.py lines 146-160): home advantage, decaying clamped
draw probability, proportional split of the rest, final renormalization. -/
noncomputable def probs_1x2 (elo_home elo_away : ℝ) : ℝ × ℝ × ℝ :=
  let p_home_raw := win_prob_from_elo (elo_home + HOME_ADV_ELO) elo_away
  let diff := |elo_home + HOME_ADV_ELO - elo_away|
  let p_draw := max 0.08 (min 0.35 (DRAW_BASE * Real.exp (-diff / DRAW_TIGHTNESS)))
  let remaining := 1.0 - p_draw
  let p_home := remaining * p_home_raw
  let p_away := remaining * (1.0 - p_home_raw)
  let s := p_home + p_draw + p_away
  (p_home / s, p_draw / s, p_away / s)

/-- pick_from_probs (run_daily.py lines 163-168). -/
noncomputable def pick_from_probs (p_home p_draw p_away : ℝ) : String :=
  if p_home ≥ p_draw ∧ p_home ≥ p_away then "HOME"
  else if p_away ≥ p_home ∧ p_away ≥ p_draw then "AWAY"
  else "DRAW"

/-- actual_outcome (run_daily.py lines 171-176). -/
def actual_outcome (home_goals away_goals : Int) : String :=
  if home_goals > away_goals then "HOME"
  else if away_goals > home_goals then "AWAY"
  else "DRAW"

/-- find_team_rating (run_daily.py lines 179-191): empty ratings or empty
name give None; exact key lookup first, then first normalized match in
insertion order. -/
def find_team_rating (ratings : List (String × ℚ)) (team_name : String) : Option ℚ :=
  if ratings = [] ∨ team_name = "" then none
  else
    match ratings.find? (fun p => p.1 == team_name) with
    | some p => some p.2
    | none =>
      match ratings.find? (fun p => norm p.1 == norm team_name) with
      | some p => some p.2
      | none => none

/-- One raw league-table row as consumed by sportsdb_fetch_table_ratings. -/
structure TableRow where
  strTeam : Option String
  intPlayed : Option String
  intPoints : Option String
  intGoalDifference : Option String
deriving DecidableEq

/-- Python dict assignment on a string-keyed association list: replace the
value of an existing key, else append. -/
def dictInsert (l : List (String × ℚ)) (k : String) (v : ℚ) : List (String × ℚ) :=
  if l.any (fun p => p.1 == k) then
    l.map (fun p => if p.1 == k then (k, v) else p)
  else l ++ [(k, v)]

/-- Rows kept by the rating builder: non-empty team and at least one match
played, with points per game and goal difference per game. -/
def table_rating_rows (table : List TableRow) : List (String × ℚ × ℚ) :=
  table.filterMap (fun t =>
    let team := t.strTeam.getD ""
    let played := safe_int t.intPlayed
    if team = "" ∨ played ≤ 0 then none
    else some (team, (safe_int t.intPoints : ℚ) / (played : ℚ),
      (safe_int t.intGoalDifference : ℚ) / (played : ℚ)))

/-- The clamped rating formula of sportsdb_fetch_table_ratings
(run_daily.py lines 287-290). -/
def rating_of_row (avg_ppg avg_gdpg ppg gdpg : ℚ) : ℚ :=
  max 1200 (min 1800 (1500 + (ppg - avg_ppg) * 420 + (gdpg - avg_gdpg) * 65))

/-- Pure part of sportsdb_fetch_table_ratings (run_daily.py lines 260-292),
applied to the fetched table rows. -/
def sportsdb_table_to_ratings (table : List TableRow) : List (String × ℚ) :=
  if table = [] then []
  else
    let rows := table_rating_rows table
    if rows = [] then []
    else
      let avg_ppg := (rows.map (fun x => x.2.1)).sum / (rows.length : ℚ)
      let avg_gdpg := (rows.map (fun x => x.2.2)).sum / (rows.length : ℚ)
      rows.foldl (fun acc x => dictInsert acc x.1 (rating_of_row avg_ppg avg_gdpg x.2.1 x.2.2)) []

/-- One raw provider event as consumed by the collector (dict.get semantics
via Option fields). -/
structure Event where
  idEvent : Option String
  idLeague : Option String
  strHomeTeam : Option String
  strAwayTeam : Option String
  dateEvent : Option String
  strTime : Option String
  intHomeScore : Option String
  intAwayScore : Option String
  strStatus : Option String

/-- The finished-marker set of is_finished (run_daily.py lines 474-481). -/
def finished_markers : List String := ["match finished", "ft", "finished", "aet", "pen"]

/-- The live-marker set of is_live_now (run_daily.py lines 484-503). -/
def live_markers : List String := ["in play", "live", "1h", "2h", "ht", "1st half", "2nd half"]

/-- is_finished (run_daily.py lines 474-481): finished status marker, or
both score fields non-absent (note: an empty-string score still counts as
non-absent here). -/
def is_finished (ev : Event) : Bool :=
  let status := norm (ev.strStatus.getD "")
  if status ∈ finished_markers then true
  else ev.intHomeScore.isSome && ev.intAwayScore.isSome

/-- is_live_now (run_daily.py lines 484-503): live status marker, or kickoff
within the grace window before now and the event not finished. -/
def is_live_now (ev : Event) (now_utc : Int) : Bool :=
  let status := norm (ev.strStatus.getD "")
  if status ∈ live_markers then true
  else
    match parse_event_dt_utc ev.dateEvent ev.strTime with
    | none => false
    | some dt =>
      let grace_start := now_utc - LIVE_GRACE_MINUTES * 60
      if grace_start ≤ dt.toSecs ∧ dt.toSecs ≤ now_utc ∧ is_finished ev = false
      then true else false

/-- Two zero-padded decimal digits. -/
def pad2 (n : Nat) : List Char := [Nat.digitChar (n / 10 % 10), Nat.digitChar (n % 10)]

/-- Four zero-padded decimal digits. -/
def pad4 (n : Nat) : List Char :=
  [Nat.digitChar (n / 1000 % 10), Nat.digitChar (n / 100 % 10),
    Nat.digitChar (n / 10 % 10), Nat.digitChar (n % 10)]

/-- Python weekday() of a day count from the epoch (Monday = 0;
1970-01-01 was a Thursday). -/
def pyWeekday (days : Int) : Int := (days + 3) % 7

/-- Day count of the last Sunday of a month. -/
def lastSundayDays (y m : Nat) : Int :=
  let last := days_from_civil y m (daysInMonth y m)
  last - ((pyWeekday last + 1) % 7)

/-- Europe/London daylight saving test for a UTC instant: BST runs from the
last Sunday of March 01:00 UTC to the last Sunday of October 01:00 UTC. -/
def isBST (secs : Int) : Bool :=
  let y := (civil_from_days (secs.fdiv 86400)).1
  let bstStart := lastSundayDays y 3 * 86400 + 3600
  let bstEnd := lastSundayDays y 10 * 86400 + 3600
  decide (bstStart ≤ secs ∧ secs < bstEnd)

/-- Europe/London UTC offset in seconds for a UTC instant. -/
def londonOffset (secs : Int) : Int := if isBST secs then 3600 else 0

/-- strftime %Y-%m-%d %H:%M of an epoch-second instant. -/
def strftime_ymd_hm (secs : Int) : String :=
  let days := secs.fdiv 86400
  let rem := (secs - days * 86400).toNat
  let c := civil_from_days days
  String.mk (pad4 c.1 ++ '-' :: pad2 c.2.1 ++ '-' :: pad2 c.2.2 ++
    ' ' :: pad2 (rem / 3600) ++ ':' :: pad2 (rem % 3600 / 60))

/-- dt_utc.astimezone(LONDON).strftime of the collector (run_daily.py
line 558). -/
def kickoff_london_str (dt : DT) : String :=
  strftime_ymd_hm (dt.toSecs + londonOffset dt.toSecs)

/-- round(x, 4) modelled on the reals. -/
noncomputable def round4 (x : ℝ) : ℝ := (round (x * 10000) : ℤ) / 10000

/-- One emitted record (the dict row of the collector); score, actual and
hit are Option because only some branches add those keys. The dict key
named type is modelled by the field rtype. -/
structure Row where
  league : String
  kickoff_london : String
  home : String
  away : String
  p_home : ℝ
  p_draw : ℝ
  p_away : ℝ
  pick : String
  source : String
  idEvent : String
  status : String
  rtype : String
  score : Option String
  actual : Option String
  hit : Option String

/-- Provider environment: the responses the network fetches would return
(lookuptable.php by league id, eventsday.php by date and canonical league
name). -/
structure Env where
  table : Int → List TableRow
  events : String → Option String → List Event

/-- Resolved league metadata as built in main (run_daily.py lines 672-675). -/
structure LeagueMeta where
  name : String
  id : Int
  canon : Option String

/-- Per-league scan parameters of the collector inner loop. -/
structure ScanParams where
  league_name : String
  league_id : Int
  ratings : List (String × ℚ)
  now_utc : Int
  upcoming_start_utc : Int
  upcoming_end_utc : Int
  results_start_utc : Int
  results_end_utc : Int

/-- Mutable state of collect_matches_for_range: the dedup set of the current
league plus the five accumulated row lists and the evaluation tally. -/
structure ScanState where
  seen : List String
  upcoming_rows : List Row
  live_rows : List Row
  result_rows : List Row
  eval_rows : List Row
  all_csv_rows : List Row
  correct_eval : Nat
  total_eval : Nat

/-- The empty initial collector state. -/
def emptyState : ScanState := ⟨[], [], [], [], [], [], 0, 0⟩

/-- str(ev.get(idEvent) or "") of the collector (run_daily.py line 548). -/
def ev_id_of (ev : Event) : String := ev.idEvent.getD ""

/-- The defensive league filter (run_daily.py lines 544-546): skip events
whose declared numeric league id is non-zero and differs from the scanned
league. -/
def league_filter_reject (league_id : Int) (ev : Event) : Bool :=
  let l := safe_int ev.idLeague
  decide (l ≠ 0 ∧ l ≠ league_id)

/-- Score coercion of the collector (run_daily.py lines 569-572): None and
empty string mean absent, otherwise safe_int. -/
def score_int (x : Option String) : Option Int :=
  match x with
  | none => none
  | some s => if s = "" then none else some (safe_int (some s))

/-- The base row built for every surviving event (run_daily.py
lines 574-586). -/
noncomputable def base_row_of (P : ScanParams) (ev : Event) (dt : DT) : Row :=
  let home := ev.strHomeTeam.getD ""
  let away := ev.strAwayTeam.getD ""
  let elo_h : ℝ := ((match find_team_rating P.ratings home with
    | none => (1500 : ℚ)
    | some v => if v = 0 then 1500 else v) : ℚ)
  let elo_a : ℝ := ((match find_team_rating P.ratings away with
    | none => (1500 : ℚ)
    | some v => if v = 0 then 1500 else v) : ℚ)
  let p := probs_1x2 elo_h elo_a
  { league := P.league_name
    kickoff_london := kickoff_london_str dt
    home := home
    away := away
    p_home := round4 p.1
    p_draw := round4 p.2.1
    p_away := round4 p.2.2
    pick := pick_from_probs p.1 p.2.1 p.2.2
    source := "SportsDB"
    idEvent := ev_id_of ev
    status := ev.strStatus.getD ""
    rtype := ""
    score := none
    actual := none
    hit := none }

/-- The routing core of the collector loop body (run_daily.py lines
554-622): parse the kickoff, then route into RESULT (with evaluation),
LIVE, UPCOMING, or drop. Does not touch the dedup set. -/
noncomputable def process (P : ScanParams) (st : ScanState) (ev : Event) : ScanState :=
  match parse_event_dt_utc ev.dateEvent ev.strTime with
  | none => st
  | some dt =>
    let base := base_row_of P ev dt
    let hg := score_int ev.intHomeScore
    let ag := score_int ev.intAwayScore
    if is_finished ev = true ∧ hg.isSome ∧ ag.isSome then
      if P.results_start_utc ≤ dt.toSecs ∧ dt.toSecs ≤ P.results_end_utc then
        let act := actual_outcome (hg.getD 0) (ag.getD 0)
        let hit := base.pick = act
        let r : Row := { base with
          rtype := "RESULT"
          score := some (toString (hg.getD 0) ++ "-" ++ toString (ag.getD 0))
          actual := some act
          hit := some (if hit then "YES" else "NO") }
        { st with
          result_rows := st.result_rows ++ [r]
          eval_rows := st.eval_rows ++ [r]
          all_csv_rows := st.all_csv_rows ++ [r]
          total_eval := st.total_eval + 1
          correct_eval := st.correct_eval + (if hit then 1 else 0) }
      else st
    else if is_live_now ev P.now_utc then
      let r : Row := { base with
        rtype := "LIVE"
        score := some (match hg, ag with
          | some h, some a => toString h ++ "-" ++ toString a
          | _, _ => "") }
      { st with
        live_rows := st.live_rows ++ [r]
        all_csv_rows := st.all_csv_rows ++ [r] }
    else if P.upcoming_start_utc ≤ dt.toSecs ∧ dt.toSecs ≤ P.upcoming_end_utc then
      let r : Row := { base with rtype := "UPCOMING" }
      { st with
        upcoming_rows := st.upcoming_rows ++ [r]
        all_csv_rows := st.all_csv_rows ++ [r] }
    else st

/-- One iteration of the collector event loop (run_daily.py lines 542-552):
league filter, dedup on non-empty provider id, then routing. -/
noncomputable def step (P : ScanParams) (st : ScanState) (ev : Event) : ScanState :=
  if league_filter_reject P.league_id ev then st
  else
    let evid := ev_id_of ev
    if evid ≠ "" ∧ evid ∈ st.seen then st
    else
      let st' := if evid ≠ "" then { st with seen := evid :: st.seen } else st
      process P st' ev

/-- One league scan of the collector (run_daily.py lines 529-552): fresh
dedup set, ratings from the fetched table, then the event loop over all
query dates in order. -/
noncomputable def scan_league (env : Env) (lg : LeagueMeta) (dates : List String)
    (now_utc ups upe rss rse : Int) (st0 : ScanState) : ScanState :=
  let ratings := sportsdb_table_to_ratings (env.table lg.id)
  let P : ScanParams :=
    { league_name := lg.name, league_id := lg.id, ratings := ratings,
      now_utc := now_utc, upcoming_start_utc := ups, upcoming_end_utc := upe,
      results_start_utc := rss, results_end_utc := rse }
  (dates.flatMap (fun day => env.events day lg.canon)).foldl (step P) { st0 with seen := [] }

/-- Sorting key kickoff_key of the final sorts (run_daily.py lines 625-626). -/
def kickoff_key (r : Row) : String :=
  if r.kickoff_london = "" then "9999-99-99 99:99" else r.kickoff_london

/-- Ascending order on the kickoff display string. -/
def kickoffLe (a b : Row) : Prop := kickoff_key a ≤ kickoff_key b

/-- Sorting key conf_key of the live sort (run_daily.py lines 628-629). -/
noncomputable def conf_key (r : Row) : ℝ := max r.p_home (max r.p_draw r.p_away)

/-- The live ordering (run_daily.py line 633): descending confidence with
kickoff string ascending as tie-break (lexicographic on (-conf, kickoff)). -/
noncomputable def liveLe (a b : Row) : Prop :=
  conf_key b < conf_key a ∨ (conf_key a = conf_key b ∧ kickoff_key a ≤ kickoff_key b)

instance : DecidableRel kickoffLe := fun a b =>
  inferInstanceAs (Decidable (kickoff_key a ≤ kickoff_key b))

noncomputable instance : DecidableRel liveLe := fun a b => by
  unfold liveLe
  infer_instance

/-- collect_matches_for_range (run_daily.py lines 509-636): scan every
league with a resolvable id, then sort the four emitted collections. -/
noncomputable def collect_matches_for_range (env : Env) (leagues_meta : List LeagueMeta)
    (dates : List String) (now_utc ups upe rss rse : Int) : ScanState :=
  let final := leagues_meta.foldl
    (fun st lg => if lg.id = 0 then st else scan_league env lg dates now_utc ups upe rss rse st)
    emptyState
  { final with
    result_rows := final.result_rows.insertionSort kickoffLe
    eval_rows := final.eval_rows.insertionSort kickoffLe
    live_rows := final.live_rows.insertionSort liveLe
    upcoming_rows := final.upcoming_rows.insertionSort kickoffLe }

/-- Modelled from the spec: the constant FALLBACK_IF_EMPTY is referenced by
main (run_daily.py line 699) but defined nowhere in the repository; the spec
(sections 4.6 and 8) states that the fallback activates when all three
buckets are empty, so the enabling flag is modelled as true. -/
def FALLBACK_IF_EMPTY : Bool := true

/-- Modelled from the spec: the constant FALLBACK_UPCOMING_DAYS is
referenced by main (run_daily.py line 700) but defined nowhere in the
repository; the comment at line 698 (show next 7 days) fixes it to 7. -/
def FALLBACK_UPCOMING_DAYS : Int := 7

/-- Modelled from the spec: the constant FALLBACK_RESULTS_HOURS is
referenced by main (run_daily.py line 703) but defined nowhere in the
repository; the comment at line 698 (last 48h results) fixes it to 48. -/
def FALLBACK_RESULTS_HOURS : Int := 48

/-- Render a civil date as YYYY-MM-DD (strftime of the date loops in main). -/
def date_str_of (d : Nat × Nat × Nat) : String :=
  String.mk (pad4 d.1 ++ '-' :: pad2 d.2.1 ++ '-' :: pad2 d.2.2)

/-- Civil date k days later. -/
def addDays (d : Nat × Nat × Nat) (k : Int) : Nat × Nat × Nat :=
  civil_from_days (days_from_civil d.1 d.2.1 d.2.2 + k)

/-- The fallback date list of main (run_daily.py lines 707-711): the London
calendar dates from today through today plus FALLBACK_UPCOMING_DAYS,
inclusive. -/
def fb_dates_of (today_london : Nat × Nat × Nat) : List String :=
  (List.range (FALLBACK_UPCOMING_DAYS.toNat + 1)).map (fun i => date_str_of (addDays today_london i))

/-- The collection phase of main (run_daily.py lines 677-725): a primary
collector pass over the Thu-Sun window, then, when the enabling flag is set
and all three buckets came back empty, a single fallback pass whose output
replaces the primary output; the boolean records whether the fallback ran
(the fallback_note). The date list and the upcoming window end of the
primary pass are taken as arguments, as main computes them from the clock
before this fragment. On aware datetimes the timedelta arithmetic of lines
700-704 is exact epoch arithmetic, so fb_end_utc is now plus
FALLBACK_UPCOMING_DAYS days of seconds. -/
noncomputable def main_collect_phase (env : Env) (leagues_meta : List LeagueMeta)
    (dates : List String) (now_utc : Int) (now_london_date : Nat × Nat × Nat)
    (upcoming_end_utc : Int) : ScanState × Bool :=
  let primary := collect_matches_for_range env leagues_meta dates now_utc now_utc
    upcoming_end_utc (now_utc - RESULTS_LOOKBACK_HOURS * 3600) now_utc
  if FALLBACK_IF_EMPTY ∧ primary.upcoming_rows.isEmpty ∧ primary.live_rows.isEmpty ∧
      primary.result_rows.isEmpty then
    (collect_matches_for_range env leagues_meta (fb_dates_of now_london_date) now_utc now_utc
      (now_utc + FALLBACK_UPCOMING_DAYS * 86400)
      (now_utc - FALLBACK_RESULTS_HOURS * 3600) now_utc, true)
  else (primary, false)

/-- The names bound at module level in src/run_daily.py: the imports of
lines 3-8 and every top-level assignment and def in the file. -/
def module_top_level_names : List String :=
  ["os", "math", "csv", "requests", "pytz", "datetime", "timedelta", "dtime",
   "DEPLOY_MARKER", "LONDON", "UTC", "RUN_DAYS", "SPORTSDB_API_KEY",
   "LEAGUE_NAMES", "SPORTSDB_LEAGUE_ID_FALLBACK", "HOME_ADV_ELO", "DRAW_BASE",
   "DRAW_TIGHTNESS", "TELEGRAM_MAX_LEN", "LIVE_GRACE_MINUTES",
   "RESULTS_LOOKBACK_HOURS", "OUT_DIR", "send_telegram_message",
   "send_telegram_chunks", "safe_int", "get_json_or_none", "norm",
   "parse_event_dt_utc", "win_prob_from_elo", "probs_1x2", "pick_from_probs",
   "actual_outcome", "find_team_rating", "write_csv", "sportsdb_get",
   "sportsdb_resolve_league_meta", "sportsdb_fetch_table_ratings",
   "sportsdb_fetch_events_day", "is_finished", "is_live_now",
   "collect_matches_for_range", "main"]

/-- The global names read by the fallback guard and fallback body of main
(run_daily.py lines 699-725), beyond locals. -/
def main_fallback_guard_globals : List String :=
  ["FALLBACK_IF_EMPTY", "FALLBACK_UPCOMING_DAYS", "FALLBACK_RESULTS_HOURS"]

/-- The global names read by the CSV output path of main (run_daily.py
lines 794-797), beyond locals. -/
def main_csv_path_globals : List String := ["OUT_DIR", "CSV_PREFIX", "write_csv"]

/-- League-average points per game over the kept rows of a table. -/
def avg_ppg_of (table : List TableRow) : ℚ :=
  ((table_rating_rows table).map (fun x => x.2.1)).sum / ((table_rating_rows table).length : ℚ)

/-- League-average goal difference per game over the kept rows of a table. -/
def avg_gdpg_of (table : List TableRow) : ℚ :=
  ((table_rating_rows table).map (fun x => x.2.2)).sum / ((table_rating_rows table).length : ℚ)

/-- The two-team scenario table of the specification: Team A played 10,
points 20, goal difference +10; Team B played 10, points 10, goal
difference 0. -/
def scenarioTable : List TableRow :=
  [⟨some "Team A", some "10", some "20", some "10"⟩,
   ⟨some "Team B", some "10", some "10", some "0"⟩]

/-- A raw event that is finished by status marker (FT) but carries no
scores; kickoff 2025-01-03 18:00 UTC. -/
def c1_event : Event :=
  { idEvent := some "e1", idLeague := none, strHomeTeam := some "H",
    strAwayTeam := some "A", dateEvent := some "2025-01-03",
    strTime := some "18:00:00", intHomeScore := none, intAwayScore := none,
    strStatus := some "FT" }

/-- Environment returning the single event above for every date query and
an empty league table. -/
def c1_env : Env := ⟨fun _ => [], fun _ _ => [c1_event]⟩

/-- A league with a resolvable id. -/
def c1_league : LeagueMeta := ⟨"Premier League", 4328, none⟩

/-- A finished event with both scores whose kickoff (2025-01-03 18:00 UTC)
will be placed outside the results window. -/
def c1_event_scored : Event :=
  { idEvent := some "e2", idLeague := none, strHomeTeam := some "H",
    strAwayTeam := some "A", dateEvent := some "2025-01-03",
    strTime := some "18:00:00", intHomeScore := some "2",
    intAwayScore := some "1", strStatus := some "FT" }

/-- Scan parameters whose results window ends before 2025-01-03 18:00 UTC
and whose upcoming window contains it. -/
def c1_params : ScanParams :=
  { league_name := "Premier League", league_id := 4328, ratings := [],
    now_utc := (DT.mk 2025 1 3 12 0 0).toSecs,
    upcoming_start_utc := (DT.mk 2025 1 3 12 0 0).toSecs,
    upcoming_end_utc := (DT.mk 2025 1 4 0 0 0).toSecs,
    results_start_utc := (DT.mk 2025 1 2 0 0 0).toSecs,
    results_end_utc := (DT.mk 2025 1 3 12 0 0).toSecs }

/-- An environment with no data at all. -/
def emptyEnv : Env := ⟨fun _ => [], fun _ _ => []⟩

/-- An upcoming event without a provider id, kickoff 2025-01-03 18:00 UTC. -/
def c5_event_noid : Event :=
  { idEvent := none, idLeague := none, strHomeTeam := some "H",
    strAwayTeam := some "A", dateEvent := some "2025-01-03",
    strTime := some "18:00:00", intHomeScore := none, intAwayScore := none,
    strStatus := none }

/-- An upcoming event with provider id d1, kickoff 2025-01-03 18:00 UTC. -/
def c5_event_id : Event :=
  { idEvent := some "d1", idLeague := none, strHomeTeam := some "H",
    strAwayTeam := some "A", dateEvent := some "2025-01-03",
    strTime := some "18:00:00", intHomeScore := none, intAwayScore := none,
    strStatus := none }

/-- The effective time string used by parse_event_dt_utc: an absent or
empty time string is replaced by midnight. -/
def eff_time_str (time_str : Option String) : String :=
  if time_str.getD "" = "" then "00:00:00" else time_str.getD ""

/-- Dedup invariant of one league scan: among the emitted records, every
non-empty provider id occurs at most once and is registered in the dedup
set. -/
def scan_inv (st : ScanState) : Prop :=
  ∀ i : String, i ≠ "" →
    List.count i (st.all_csv_rows.map Row.idEvent) ≤ 1 ∧
    (i ∈ st.all_csv_rows.map Row.idEvent → i ∈ st.seen)

/-! Theorems. -/

/-- C2: the spec promises that a run-day invocation of main whose fetches
only degrade to empty data completes its digest without raising, and in
particular that evaluating the fallback guard (line 699) and the CSV path
(line 796) raises no exception. The code cannot deliver this: the fallback
guard reads the global FALLBACK_IF_EMPTY and the CSV path reads the global
CSV_PREFIX, yet neither name (nor FALLBACK_UPCOMING_DAYS or
FALLBACK_RESULTS_HOURS) is bound anywhere at module level in
src/run_daily.py, so Python raises NameError the moment the guard is
evaluated, on every run-day invocation, before any digest is sent. -/
theorem c2_fallback_guard_reads_unbound_names :
    "FALLBACK_IF_EMPTY" ∈ main_fallback_guard_globals ∧
    "CSV_PREFIX" ∈ main_csv_path_globals ∧
    "FALLBACK_IF_EMPTY" ∉ module_top_level_names ∧
    "FALLBACK_UPCOMING_DAYS" ∉ module_top_level_names ∧
    "FALLBACK_RESULTS_HOURS" ∉ module_top_level_names ∧
    "CSV_PREFIX" ∉ module_top_level_names := by
  refine ⟨by decide, by decide, by decide, by decide, by decide, by decide⟩

/-- C6: pick_from_probs returns HOME when pHome is at least both other
probabilities, else AWAY when pAway is at least both others, else DRAW;
a HOME-AWAY tie at the maximum and a three-way tie both resolve to HOME. -/
theorem c6_pick_tiebreak (p_home p_draw p_away : ℝ) :
    (p_home ≥ p_draw ∧ p_home ≥ p_away → pick_from_probs p_home p_draw p_away = "HOME") ∧
    (¬(p_home ≥ p_draw ∧ p_home ≥ p_away) → (p_away ≥ p_home ∧ p_away ≥ p_draw) →
      pick_from_probs p_home p_draw p_away = "AWAY") ∧
    (¬(p_home ≥ p_draw ∧ p_home ≥ p_away) → ¬(p_away ≥ p_home ∧ p_away ≥ p_draw) →
      pick_from_probs p_home p_draw p_away = "DRAW") ∧
    (p_draw ≤ p_home ∧ p_home = p_away → pick_from_probs p_home p_draw p_away = "HOME") ∧
    (p_home = p_draw ∧ p_draw = p_away → pick_from_probs p_home p_draw p_away = "HOME") := by
  unfold pick_from_probs
  refine ⟨fun h => if_pos h, fun h1 h2 => ?_, fun h1 h2 => ?_, fun h => ?_, fun h => ?_⟩
  · rw [if_neg h1, if_pos h2]
  · rw [if_neg h1, if_neg h2]
  · exact if_pos ⟨h.1, h.2.ge⟩
  · exact if_pos ⟨h.1.ge, (h.1.trans h.2).ge⟩

/-- C6 witness: a HOME-AWAY tie and a three-way tie both give HOME. -/
theorem c6_pick_tiebreak_witness :
    pick_from_probs 0.4 0.2 0.4 = "HOME" ∧
    pick_from_probs (1 / 3) (1 / 3) (1 / 3) = "HOME" :=
  ⟨(c6_pick_tiebreak 0.4 0.2 0.4).1 ⟨by norm_num, le_refl _⟩,
   (c6_pick_tiebreak (1 / 3) (1 / 3) (1 / 3)).1 ⟨le_refl _, le_refl _⟩⟩

/-- C1 counterexample: the claim says a finished event lacking both scores
is emitted in no bucket at all, but the collector only drops such an event
from the RESULT branch; here an event finished by status marker FT with
both scores absent, kickoff 2025-01-03 18:00 UTC inside the upcoming
window, is emitted in the UPCOMING bucket. -/
theorem c1_counterexample :
    is_finished c1_event = true ∧
    c1_event.intHomeScore = none ∧ c1_event.intAwayScore = none ∧
    ((collect_matches_for_range c1_env [c1_league] ["2025-01-03"]
        ((DT.mk 2025 1 3 12 0 0).toSecs)
        ((DT.mk 2025 1 3 12 0 0).toSecs)
        ((DT.mk 2025 1 4 0 0 0).toSecs)
        ((DT.mk 2025 1 2 0 0 0).toSecs)
        ((DT.mk 2025 1 3 12 0 0).toSecs)).upcoming_rows).map Row.idEvent = ["e1"] := by
  refine ⟨by decide, by decide, by decide, by decide⟩

/-- C1 amended: a finished event with both numeric scores present whose
kickoff lies outside the results window is dropped entirely (the routing
core leaves the state untouched); a finished event lacking both numeric
scores is never emitted as RESULT and never counted by the evaluation
tally, though it may still be emitted as LIVE or UPCOMING. -/
theorem c1_finished_event_routing (P : ScanParams) (st : ScanState) (ev : Event) (dt : DT)
    (hparse : parse_event_dt_utc ev.dateEvent ev.strTime = some dt)
    (hfin : is_finished ev = true) :
    ((score_int ev.intHomeScore).isSome = true → (score_int ev.intAwayScore).isSome = true →
      ¬(P.results_start_utc ≤ dt.toSecs ∧ dt.toSecs ≤ P.results_end_utc) →
      process P st ev = st) ∧
    (¬((score_int ev.intHomeScore).isSome = true ∧ (score_int ev.intAwayScore).isSome = true) →
      (process P st ev).result_rows = st.result_rows ∧
      (process P st ev).total_eval = st.total_eval) := by
  unfold process
  rw [hparse]
  refine ⟨fun hh ha hw => ?_, fun hns => ?_⟩
  · dsimp only
    rw [if_pos ⟨hfin, hh, ha⟩, if_neg hw]
  · dsimp only
    have hcond : ¬(is_finished ev = true ∧ (score_int ev.intHomeScore).isSome = true ∧
        (score_int ev.intAwayScore).isSome = true) := fun h => hns ⟨h.2.1, h.2.2⟩
    rw [if_neg hcond]
    split_ifs <;> exact ⟨rfl, rfl⟩

/-- C1 amended witness: a finished, fully scored event outside the results
window leaves the collector state untouched, and the finished unscored
event of the counterexample adds nothing to the RESULT collection. -/
theorem c1_finished_event_routing_witness :
    process c1_params emptyState c1_event_scored = emptyState ∧
    (process c1_params emptyState c1_event).result_rows = emptyState.result_rows :=
  ⟨(c1_finished_event_routing c1_params emptyState c1_event_scored
      (DT.mk 2025 1 3 18 0 0) (by decide) (by decide)).1 (by decide) (by decide) (by decide),
   ((c1_finished_event_routing c1_params emptyState c1_event
      (DT.mk 2025 1 3 18 0 0) (by decide) (by decide)).2 (by decide)).1⟩

instance : IsTotal Row kickoffLe :=
  ⟨fun a b => le_total (kickoff_key a) (kickoff_key b)⟩

instance : IsTrans Row kickoffLe :=
  ⟨fun _ _ _ h1 h2 => le_trans h1 h2⟩

instance : IsTotal Row liveLe := by
  refine ⟨fun a b => ?_⟩
  unfold liveLe
  rcases lt_trichotomy (conf_key a) (conf_key b) with h | h | h
  · exact Or.inr (Or.inl h)
  · rcases le_total (kickoff_key a) (kickoff_key b) with hk | hk
    · exact Or.inl (Or.inr ⟨h, hk⟩)
    · exact Or.inr (Or.inr ⟨h.symm, hk⟩)
  · exact Or.inl (Or.inl h)

instance : IsTrans Row liveLe := by
  refine ⟨fun a b c h1 h2 => ?_⟩
  unfold liveLe at h1 h2 ⊢
  rcases h1 with h1 | ⟨e1, k1⟩
  · rcases h2 with h2 | ⟨e2, k2⟩
    · exact Or.inl (h2.trans h1)
    · exact Or.inl (e2 ▸ h1)
  · rcases h2 with h2 | ⟨e2, k2⟩
    · exact Or.inl (by rw [e1]; exact h2)
    · exact Or.inr ⟨e1.trans e2, k1.trans k2⟩

/-- C10: on every collector output, the RESULT and UPCOMING collections are
sorted ascending by the kickoff local display string and the LIVE
collection is sorted by descending prediction confidence
max(pHome, pDraw, pAway) with kickoff string ascending as tie-break. -/
theorem c10_collector_output_sorted (env : Env) (leagues : List LeagueMeta)
    (dates : List String) (now ups upe rss rse : Int) :
    List.Sorted kickoffLe
      (collect_matches_for_range env leagues dates now ups upe rss rse).result_rows ∧
    List.Sorted kickoffLe
      (collect_matches_for_range env leagues dates now ups upe rss rse).upcoming_rows ∧
    List.Sorted liveLe
      (collect_matches_for_range env leagues dates now ups upe rss rse).live_rows := by
  unfold collect_matches_for_range
  exact ⟨List.sorted_insertionSort _ _, List.sorted_insertionSort _ _,
    List.sorted_insertionSort _ _⟩

/-- C4 (with the fallback constants modelled from the spec, as they are
absent from the source): the fallback collector pass runs exactly when the
primary pass leaves all three buckets empty; the phase performs at most one
fallback pass, whose output fully replaces the primary output; when the
fallback does not run, the primary output is returned unchanged. -/
theorem c4_fallback_iff_empty (env : Env) (leagues : List LeagueMeta) (dates : List String)
    (now : Int) (nld : Nat × Nat × Nat) (upe : Int) :
    ((main_collect_phase env leagues dates now nld upe).2 = true ↔
      ((collect_matches_for_range env leagues dates now now upe
          (now - RESULTS_LOOKBACK_HOURS * 3600) now).upcoming_rows = [] ∧
        (collect_matches_for_range env leagues dates now now upe
          (now - RESULTS_LOOKBACK_HOURS * 3600) now).live_rows = [] ∧
        (collect_matches_for_range env leagues dates now now upe
          (now - RESULTS_LOOKBACK_HOURS * 3600) now).result_rows = [])) ∧
    ((main_collect_phase env leagues dates now nld upe).2 = true →
      (main_collect_phase env leagues dates now nld upe).1 =
        collect_matches_for_range env leagues (fb_dates_of nld) now now
          (now + FALLBACK_UPCOMING_DAYS * 86400) (now - FALLBACK_RESULTS_HOURS * 3600) now) ∧
    ((main_collect_phase env leagues dates now nld upe).2 = false →
      (main_collect_phase env leagues dates now nld upe).1 =
        collect_matches_for_range env leagues dates now now upe
          (now - RESULTS_LOOKBACK_HOURS * 3600) now) := by
  unfold main_collect_phase
  dsimp only
  split_ifs with h
  · obtain ⟨-, h1, h2, h3⟩ := h
    refine ⟨⟨fun _ => ?_, fun _ => rfl⟩, fun _ => rfl, fun hf => absurd hf (by simp)⟩
    exact ⟨List.isEmpty_iff.mp h1, List.isEmpty_iff.mp h2, List.isEmpty_iff.mp h3⟩
  · refine ⟨⟨fun ht => absurd ht (by simp), fun he => ?_⟩, fun ht => absurd ht (by simp),
      fun _ => rfl⟩
    exact absurd ⟨rfl, List.isEmpty_iff.mpr he.1, List.isEmpty_iff.mpr he.2.1,
      List.isEmpty_iff.mpr he.2.2⟩ h

/-- C4 witness: with an empty environment the primary pass is empty, so the
fallback runs. -/
theorem c4_fallback_iff_empty_witness :
    (main_collect_phase emptyEnv [] [] 0 (1970, 1, 1) 0).2 = true :=
  (c4_fallback_iff_empty emptyEnv [] [] 0 (1970, 1, 1) 0).1.mpr ⟨rfl, rfl, rfl⟩

lemma win_prob_pos_lt_one (a b : ℝ) :
    0 < win_prob_from_elo a b ∧ win_prob_from_elo a b < 1 := by
  unfold win_prob_from_elo
  have h10 : (0 : ℝ) < (10.0 : ℝ) ^ ((b - a) / 400.0) :=
    Real.rpow_pos_of_pos (by norm_num) _
  have hden : (0 : ℝ) < 1.0 + (10.0 : ℝ) ^ ((b - a) / 400.0) := by linarith
  constructor
  · exact div_pos (by norm_num) hden
  · rw [div_lt_one hden]
    linarith

lemma pclamp_bounds (x : ℝ) :
    (0.08 : ℝ) ≤ max 0.08 (min 0.35 x) ∧ max 0.08 (min 0.35 x) ≤ 0.35 :=
  ⟨le_max_left _ _, max_le (by norm_num) (min_le_left _ _)⟩

lemma probs_1x2_eq (eh ea : ℝ) :
    probs_1x2 eh ea =
      ((1 - max 0.08 (min 0.35 (DRAW_BASE *
            Real.exp (-|eh + HOME_ADV_ELO - ea| / DRAW_TIGHTNESS)))) *
          win_prob_from_elo (eh + HOME_ADV_ELO) ea,
        max 0.08 (min 0.35 (DRAW_BASE *
          Real.exp (-|eh + HOME_ADV_ELO - ea| / DRAW_TIGHTNESS))),
        (1 - max 0.08 (min 0.35 (DRAW_BASE *
            Real.exp (-|eh + HOME_ADV_ELO - ea| / DRAW_TIGHTNESS)))) *
          (1 - win_prob_from_elo (eh + HOME_ADV_ELO) ea)) := by
  unfold probs_1x2
  dsimp only
  set w := win_prob_from_elo (eh + HOME_ADV_ELO) ea with hw
  set d := max 0.08 (min 0.35 (DRAW_BASE *
    Real.exp (-|eh + HOME_ADV_ELO - ea| / DRAW_TIGHTNESS))) with hd
  have hs : (1.0 - d) * w + d + (1.0 - d) * (1.0 - w) = 1 := by ring
  rw [hs, div_one, div_one, div_one]
  norm_num

/-- C3: for every pair of input ratings, probs_1x2 returns three
non-negative values whose sum is 1 within a 1e-9 tolerance (in the real
model the renormalized sum is exactly 1). -/
theorem c3_probs_nonneg_sum_one (elo_home elo_away : ℝ) :
    0 ≤ (probs_1x2 elo_home elo_away).1 ∧
    0 ≤ (probs_1x2 elo_home elo_away).2.1 ∧
    0 ≤ (probs_1x2 elo_home elo_away).2.2 ∧
    |(probs_1x2 elo_home elo_away).1 + (probs_1x2 elo_home elo_away).2.1 +
        (probs_1x2 elo_home elo_away).2.2 - 1| ≤ 1e-9 := by
  obtain ⟨hw0, hw1⟩ := win_prob_pos_lt_one (elo_home + HOME_ADV_ELO) elo_away
  obtain ⟨hd0, hd1⟩ := pclamp_bounds (DRAW_BASE *
    Real.exp (-|elo_home + HOME_ADV_ELO - elo_away| / DRAW_TIGHTNESS))
  rw [probs_1x2_eq]
  dsimp only
  refine ⟨mul_nonneg (by linarith) hw0.le, by linarith,
    mul_nonneg (by linarith) (by linarith), ?_⟩
  have hsum : (1 - max 0.08 (min 0.35 (DRAW_BASE *
        Real.exp (-|elo_home + HOME_ADV_ELO - elo_away| / DRAW_TIGHTNESS)))) *
        win_prob_from_elo (elo_home + HOME_ADV_ELO) elo_away +
      max 0.08 (min 0.35 (DRAW_BASE *
        Real.exp (-|elo_home + HOME_ADV_ELO - elo_away| / DRAW_TIGHTNESS))) +
      (1 - max 0.08 (min 0.35 (DRAW_BASE *
          Real.exp (-|elo_home + HOME_ADV_ELO - elo_away| / DRAW_TIGHTNESS)))) *
        (1 - win_prob_from_elo (elo_home + HOME_ADV_ELO) elo_away) - 1 = 0 := by ring
  rw [hsum]
  norm_num

/-- C7: the draw probability emitted by probs_1x2 always lies in
[0.08, 0.35], and between two rating pairs the one with the larger
|(eloHome + 55) - eloAway| gap gets a draw probability at most the
other's. -/
theorem c7_draw_clamped_antitone (h1 a1 h2 a2 : ℝ) :
    ((0.08 : ℝ) ≤ (probs_1x2 h1 a1).2.1 ∧ (probs_1x2 h1 a1).2.1 ≤ 0.35) ∧
    (|h1 + 55 - a1| ≤ |h2 + 55 - a2| →
      (probs_1x2 h2 a2).2.1 ≤ (probs_1x2 h1 a1).2.1) := by
  rw [probs_1x2_eq, probs_1x2_eq]
  dsimp only
  refine ⟨pclamp_bounds _, fun hg => ?_⟩
  have hg' : |h1 + HOME_ADV_ELO - a1| ≤ |h2 + HOME_ADV_ELO - a2| := by
    unfold HOME_ADV_ELO
    exact hg
  have hexp : Real.exp (-|h2 + HOME_ADV_ELO - a2| / DRAW_TIGHTNESS) ≤
      Real.exp (-|h1 + HOME_ADV_ELO - a1| / DRAW_TIGHTNESS) := by
    apply Real.exp_le_exp.mpr
    unfold DRAW_TIGHTNESS
    have h260 : (0 : ℝ) < 260.0 := by norm_num
    exact (div_le_div_iff_of_pos_right h260).mpr (by linarith)
  have hmul : DRAW_BASE * Real.exp (-|h2 + HOME_ADV_ELO - a2| / DRAW_TIGHTNESS) ≤
      DRAW_BASE * Real.exp (-|h1 + HOME_ADV_ELO - a1| / DRAW_TIGHTNESS) := by
    apply mul_le_mul_of_nonneg_left hexp
    unfold DRAW_BASE
    norm_num
  exact max_le_max (le_refl _) (min_le_min (le_refl _) hmul)

/-- C7 witness: the gap at ratings (1500, 1500) is smaller than at
(1600, 1400), so the draw probability of the second pair is at most that
of the first. -/
theorem c7_draw_clamped_antitone_witness :
    (probs_1x2 1600 1400).2.1 ≤ (probs_1x2 1500 1500).2.1 :=
  (c7_draw_clamped_antitone 1500 1500 1600 1400).2 (by norm_num)

lemma mem_dictInsert {l : List (String × ℚ)} {k : String} {v : ℚ} {p : String × ℚ}
    (hp : p ∈ dictInsert l k v) : p ∈ l ∨ p = (k, v) := by
  unfold dictInsert at hp
  split_ifs at hp with h
  · rcases List.mem_map.1 hp with ⟨q, hq, hfq⟩
    by_cases hqk : (q.1 == k) = true
    · rw [if_pos hqk] at hfq
      exact Or.inr hfq.symm
    · rw [if_neg hqk] at hfq
      exact Or.inl (hfq ▸ hq)
  · rcases List.mem_append.1 hp with h1 | h1
    · exact Or.inl h1
    · exact Or.inr (List.mem_singleton.1 h1)

lemma foldl_dictInsert_pred (Q : String × ℚ → Prop) (g : String × ℚ × ℚ → ℚ) :
    ∀ (rows : List (String × ℚ × ℚ)) (acc : List (String × ℚ)),
      (∀ p ∈ acc, Q p) → (∀ x ∈ rows, Q (x.1, g x)) →
      ∀ p ∈ rows.foldl (fun a x => dictInsert a x.1 (g x)) acc, Q p := by
  intro rows
  induction rows with
  | nil => exact fun acc hacc _ p hp => hacc p hp
  | cons x xs ih =>
    intro acc hacc hrows p hp
    refine ih (dictInsert acc x.1 (g x)) ?_
      (fun y hy => hrows y (List.mem_cons_of_mem _ hy)) p hp
    intro q hq
    rcases mem_dictInsert hq with h | h
    · exact hacc q h
    · rw [h]
      exact hrows x (List.mem_cons_self _ _)

lemma mem_table_rating_rows {table : List TableRow} {x : String × ℚ × ℚ}
    (hx : x ∈ table_rating_rows table) :
    ∃ t ∈ table, t.strTeam.getD "" = x.1 ∧ x.1 ≠ "" ∧ 0 < safe_int t.intPlayed ∧
      x.2.1 = (safe_int t.intPoints : ℚ) / ((safe_int t.intPlayed : Int) : ℚ) ∧
      x.2.2 = (safe_int t.intGoalDifference : ℚ) / ((safe_int t.intPlayed : Int) : ℚ) := by
  unfold table_rating_rows at hx
  rcases List.mem_filterMap.1 hx with ⟨t, ht, hft⟩
  dsimp only at hft
  by_cases h : t.strTeam.getD "" = "" ∨ safe_int t.intPlayed ≤ 0
  · rw [if_pos h] at hft
    exact absurd hft (by simp)
  · rw [if_neg h] at hft
    push_neg at h
    replace hft := Option.some.inj hft
    subst hft
    exact ⟨t, ht, rfl, h.1, h.2, rfl, rfl⟩

lemma scenario_rows : table_rating_rows scenarioTable = [("Team A", 2, 1), ("Team B", 1, 0)] := by
  have h10 : safe_int (some "10") = 10 := by decide
  have h20 : safe_int (some "20") = 20 := by decide
  have h0 : safe_int (some "0") = 0 := by decide
  norm_num [table_rating_rows, scenarioTable, List.filterMap_cons, List.filterMap_nil,
    Option.getD_some, h10, h20, h0,
    (by decide : ¬(("Team A" : String) = "")), (by decide : ¬(("Team B" : String) = ""))]

lemma scenario_ratings_eq :
    sportsdb_table_to_ratings scenarioTable = [("Team A", 3485 / 2), ("Team B", 2515 / 2)] := by
  have hne : ¬(scenarioTable = []) := by simp [scenarioTable]
  rw [sportsdb_table_to_ratings, if_neg hne, scenario_rows]
  norm_num [List.map_cons, List.map_nil, List.sum_cons, List.sum_nil, List.length_cons,
    List.length_nil, List.foldl_cons, List.foldl_nil, dictInsert, rating_of_row,
    min_def, max_def, (by decide : ¬(("Team A" : String) = "Team B"))]
  intro h
  exact absurd h (by simp)

/-- C8: every rating emitted by the table-to-ratings builder comes from a
table row with a non-empty team name and strictly positive matches played,
and equals the clamp to [1200, 1800] of
1500 + (ppg - avgPpg) * 420 + (gdpg - avgGdpg) * 65; on the two-row
scenario table, Team A rates 1742.5 and Team B 1257.5, so Team A is above
1500, Team B below, and both are inside [1200, 1800]. -/
theorem c8_table_ratings :
    (∀ (table : List TableRow) (p : String × ℚ), p ∈ sportsdb_table_to_ratings table →
      ∃ t ∈ table, t.strTeam.getD "" = p.1 ∧ p.1 ≠ "" ∧ 0 < safe_int t.intPlayed ∧
        p.2 = rating_of_row (avg_ppg_of table) (avg_gdpg_of table)
          ((safe_int t.intPoints : ℚ) / ((safe_int t.intPlayed : Int) : ℚ))
          ((safe_int t.intGoalDifference : ℚ) / ((safe_int t.intPlayed : Int) : ℚ))) ∧
    sportsdb_table_to_ratings scenarioTable =
      [("Team A", 3485 / 2), ("Team B", 2515 / 2)] ∧
    (1500 : ℚ) < 3485 / 2 ∧ (2515 / 2 : ℚ) < 1500 ∧
    (1200 : ℚ) ≤ 2515 / 2 ∧ (3485 / 2 : ℚ) ≤ 1800 := by
  refine ⟨?_, scenario_ratings_eq, by norm_num, by norm_num, by norm_num, by norm_num⟩
  intro table p hp
  rw [sportsdb_table_to_ratings] at hp
  by_cases h1 : table = []
  · rw [if_pos h1] at hp
    exact absurd hp (by simp)
  rw [if_neg h1] at hp
  dsimp only at hp
  by_cases h2 : table_rating_rows table = []
  · rw [if_pos h2] at hp
    exact absurd hp (by simp)
  rw [if_neg h2] at hp
  refine foldl_dictInsert_pred
      (fun q => ∃ t ∈ table, t.strTeam.getD "" = q.1 ∧ q.1 ≠ "" ∧ 0 < safe_int t.intPlayed ∧
        q.2 = rating_of_row (avg_ppg_of table) (avg_gdpg_of table)
          ((safe_int t.intPoints : ℚ) / ((safe_int t.intPlayed : Int) : ℚ))
          ((safe_int t.intGoalDifference : ℚ) / ((safe_int t.intPlayed : Int) : ℚ)))
      (fun x => rating_of_row (avg_ppg_of table) (avg_gdpg_of table) x.2.1 x.2.2)
      (table_rating_rows table) [] (fun q hq => absurd hq (by simp)) ?_ p hp
  intro x hx
  rcases mem_table_rating_rows hx with ⟨t, ht, hteam, hne, hpl, hppg, hgd⟩
  exact ⟨t, ht, hteam, hne, hpl, by dsimp only; rw [hppg, hgd]⟩

/-- C8 witness: the Team A entry of the scenario table satisfies the
membership characterization. -/
theorem c8_table_ratings_witness :
    ∃ t ∈ scenarioTable, t.strTeam.getD "" = "Team A" ∧ ("Team A" : String) ≠ "" ∧
      0 < safe_int t.intPlayed ∧
      (3485 / 2 : ℚ) = rating_of_row (avg_ppg_of scenarioTable) (avg_gdpg_of scenarioTable)
        ((safe_int t.intPoints : ℚ) / ((safe_int t.intPlayed : Int) : ℚ))
        ((safe_int t.intGoalDifference : ℚ) / ((safe_int t.intPlayed : Int) : ℚ)) := by
  refine c8_table_ratings.1 scenarioTable ("Team A", 3485 / 2) ?_
  rw [scenario_ratings_eq]
  exact List.mem_cons_self _ _

lemma process_seen (P : ScanParams) (st : ScanState) (ev : Event) :
    (process P st ev).seen = st.seen := by
  unfold process
  cases parse_event_dt_utc ev.dateEvent ev.strTime with
  | none => rfl
  | some dt =>
    dsimp only
    split_ifs <;> rfl

lemma base_row_idEvent (P : ScanParams) (ev : Event) (dt : DT) :
    (base_row_of P ev dt).idEvent = ev_id_of ev := rfl

lemma process_all_csv (P : ScanParams) (st : ScanState) (ev : Event) :
    ∃ l : List Row, (process P st ev).all_csv_rows = st.all_csv_rows ++ l ∧
      l.length ≤ 1 ∧ ∀ r ∈ l, r.idEvent = ev_id_of ev := by
  unfold process
  cases parse_event_dt_utc ev.dateEvent ev.strTime with
  | none => exact ⟨[], by simp, by simp, by simp⟩
  | some dt =>
    dsimp only
    split_ifs
    all_goals
      first
        | exact ⟨[], (List.append_nil _).symm, Nat.zero_le _,
            fun r hr => absurd hr (List.not_mem_nil r)⟩
        | exact ⟨_, rfl, Nat.le_refl _, fun r hr => by
            rw [List.mem_singleton] at hr
            subst hr
            rfl⟩

lemma step_seen_mono (P : ScanParams) (st : ScanState) (ev : Event) :
    st.seen ⊆ (step P st ev).seen := by
  unfold step
  by_cases h1 : league_filter_reject P.league_id ev = true
  · rw [if_pos h1]
    exact fun x hx => hx
  rw [if_neg h1]
  dsimp only
  by_cases h2 : ev_id_of ev ≠ "" ∧ ev_id_of ev ∈ st.seen
  · rw [if_pos h2]
    exact fun x hx => hx
  rw [if_neg h2, process_seen]
  by_cases h3 : ev_id_of ev ≠ ""
  · rw [if_pos h3]
    exact List.subset_cons_self _ _
  · rw [if_neg h3]
    exact fun x hx => hx

lemma foldl_step_seen_mono (P : ScanParams) (l : List Event) :
    ∀ st : ScanState, st.seen ⊆ (l.foldl (step P) st).seen := by
  induction l with
  | nil => exact fun st => List.Subset.refl _
  | cons e es ih =>
    intro st
    rw [List.foldl_cons]
    exact (step_seen_mono P st e).trans (ih _)

lemma step_of_mem (P : ScanParams) (st : ScanState) (ev : Event)
    (hne : ev_id_of ev ≠ "") (hmem : ev_id_of ev ∈ st.seen) : step P st ev = st := by
  unfold step
  by_cases h1 : league_filter_reject P.league_id ev = true
  · rw [if_pos h1]
  · rw [if_neg h1]
    dsimp only
    rw [if_pos ⟨hne, hmem⟩]

lemma step_adds_id (P : ScanParams) (st : ScanState) (ev : Event)
    (hne : ev_id_of ev ≠ "") (hrej : league_filter_reject P.league_id ev = false) :
    ev_id_of ev ∈ (step P st ev).seen := by
  unfold step
  by_cases h1 : league_filter_reject P.league_id ev = true
  · rw [hrej] at h1
    exact absurd h1 (by simp)
  rw [if_neg h1]
  dsimp only
  by_cases h2 : ev_id_of ev ≠ "" ∧ ev_id_of ev ∈ st.seen
  · rw [if_pos h2]
    exact h2.2
  rw [if_neg h2, process_seen, if_pos hne]
  exact List.mem_cons_self _ _

lemma step_inv (P : ScanParams) (st : ScanState) (ev : Event) (h : scan_inv st) :
    scan_inv (step P st ev) := by
  unfold scan_inv at h ⊢
  unfold step
  by_cases h1 : league_filter_reject P.league_id ev = true
  · rw [if_pos h1]
    exact h
  rw [if_neg h1]
  dsimp only
  by_cases h2 : ev_id_of ev ≠ "" ∧ ev_id_of ev ∈ st.seen
  · rw [if_pos h2]
    exact h
  rw [if_neg h2]
  · obtain ⟨l, hl, hlen, hids⟩ := process_all_csv P
      (if ev_id_of ev ≠ "" then { st with seen := ev_id_of ev :: st.seen } else st) ev
    have hseen' := process_seen P
      (if ev_id_of ev ≠ "" then { st with seen := ev_id_of ev :: st.seen } else st) ev
    intro i hi
    have hcsv' : (if ev_id_of ev ≠ "" then { st with seen := ev_id_of ev :: st.seen }
        else st).all_csv_rows = st.all_csv_rows := by
      split_ifs <;> rfl
    rw [hcsv'] at hl
    by_cases hie : i = ev_id_of ev
    · have hi' : ev_id_of ev ≠ "" := hie ▸ hi
      have hnseen : ev_id_of ev ∉ st.seen := fun hmem => h2 ⟨hi', hmem⟩
      have hnotin : ev_id_of ev ∉ st.all_csv_rows.map Row.idEvent :=
        fun hin => hnseen ((h _ hi').2 hin)
      have hc0 : List.count (ev_id_of ev) (st.all_csv_rows.map Row.idEvent) = 0 :=
        List.count_eq_zero.mpr hnotin
      rw [hie]
      constructor
      · rw [hl, List.map_append, List.count_append, hc0]
        have hle : List.count (ev_id_of ev) (l.map Row.idEvent) ≤ (l.map Row.idEvent).length :=
          List.count_le_length _ _
        rw [List.length_map] at hle
        omega
      · intro _
        rw [hseen', if_pos hi']
        exact List.mem_cons_self _ _
    · have hcl : List.count i (l.map Row.idEvent) = 0 := by
        apply List.count_eq_zero.mpr
        intro hmem
        rcases List.mem_map.1 hmem with ⟨r, hr, hrid⟩
        exact hie (by rw [← hrid, hids r hr])
      constructor
      · rw [hl, List.map_append, List.count_append, hcl]
        have := (h i hi).1
        omega
      · intro hmem
        rw [hl, List.map_append, List.mem_append] at hmem
        rcases hmem with hold | hlpart
        · have hsold := (h i hi).2 hold
          rw [hseen']
          split_ifs
          · exact List.mem_cons_of_mem _ hsold
          · exact hsold
        · exact absurd hlpart (List.count_eq_zero.mp hcl)

lemma foldl_step_inv (P : ScanParams) (l : List Event) :
    ∀ st : ScanState, scan_inv st → scan_inv (l.foldl (step P) st) := by
  induction l with
  | nil => exact fun st h => h
  | cons e es ih =>
    intro st h
    rw [List.foldl_cons]
    exact ih _ (step_inv P st e h)

lemma emptyState_inv : scan_inv emptyState := by
  unfold scan_inv emptyState
  intro i hi
  exact ⟨by simp, by simp⟩

/-- C5: within one league scan over the query dates, (a) every non-empty
provider id yields at most one record among the emitted records;
(b) an event whose non-empty id is already in the dedup set is silently
skipped (the state is unchanged); (c) once a first occurrence that passes
the league filter has been processed, a later event carrying the same
non-empty id is a no-op; (d) an event with an empty id bypasses the dedup
check entirely (it is routed regardless of the dedup set, which it leaves
unchanged), so such events are never deduplicated. -/
theorem c5_dedup_per_league_scan :
    (∀ (P : ScanParams) (evs : List Event) (i : String), i ≠ "" →
      List.count i (((evs.foldl (step P) emptyState).all_csv_rows).map Row.idEvent) ≤ 1) ∧
    (∀ (P : ScanParams) (st : ScanState) (ev : Event),
      ev_id_of ev ≠ "" → ev_id_of ev ∈ st.seen → step P st ev = st) ∧
    (∀ (P : ScanParams) (l1 l2 : List Event) (e1 e2 : Event) (st0 : ScanState),
      league_filter_reject P.league_id e1 = false → ev_id_of e1 ≠ "" →
      ev_id_of e1 = ev_id_of e2 →
      step P ((l1 ++ e1 :: l2).foldl (step P) st0) e2 =
        (l1 ++ e1 :: l2).foldl (step P) st0) ∧
    (∀ (P : ScanParams) (st : ScanState) (ev : Event), ev_id_of ev = "" →
      league_filter_reject P.league_id ev = false →
      step P st ev = process P st ev ∧ (step P st ev).seen = st.seen) := by
  refine ⟨?_, ?_, ?_, ?_⟩
  · intro P evs i hi
    exact ((foldl_step_inv P evs emptyState emptyState_inv) i hi).1
  · intro P st ev hne hmem
    exact step_of_mem P st ev hne hmem
  · intro P l1 l2 e1 e2 st0 hrej hne heq
    have hmem1 : ev_id_of e1 ∈ ((l1 ++ e1 :: l2).foldl (step P) st0).seen := by
      rw [List.foldl_append, List.foldl_cons]
      exact foldl_step_seen_mono P l2 _ (step_adds_id P _ e1 hne hrej)
    exact step_of_mem P _ e2 (fun hc => hne (heq.trans hc)) (heq ▸ hmem1)
  · intro P st ev hempty hrej
    have hrej' : ¬(league_filter_reject P.league_id ev = true) := by
      rw [hrej]
      simp
    have hno : ¬(ev_id_of ev ≠ "" ∧ ev_id_of ev ∈ st.seen) := fun hc => hc.1 hempty
    have hne' : ¬(ev_id_of ev ≠ "") := fun hc => hc hempty
    constructor
    · unfold step
      rw [if_neg hrej']
      dsimp only
      rw [if_neg hno, if_neg hne']
    · unfold step
      rw [if_neg hrej']
      dsimp only
      rw [if_neg hno, if_neg hne', process_seen]

/-- C5 witness: the count bound applied to a stream repeating the same
id twice, the silent skip applied to a state that has already seen the id,
the second-occurrence no-op applied to a two-element stream, and the
dedup bypass applied to an id-less event. -/
theorem c5_dedup_per_league_scan_witness :
    List.count "d1"
      ((([c5_event_id, c5_event_id].foldl (step c1_params) emptyState).all_csv_rows).map
        Row.idEvent) ≤ 1 ∧
    step c1_params { emptyState with seen := ["d1"] } c5_event_id =
      { emptyState with seen := ["d1"] } ∧
    step c1_params (([] ++ c5_event_id :: []).foldl (step c1_params) emptyState) c5_event_id =
      ([] ++ c5_event_id :: []).foldl (step c1_params) emptyState ∧
    step c1_params emptyState c5_event_noid = process c1_params emptyState c5_event_noid :=
  ⟨c5_dedup_per_league_scan.1 c1_params [c5_event_id, c5_event_id] "d1" (by decide),
   c5_dedup_per_league_scan.2.1 c1_params { emptyState with seen := ["d1"] } c5_event_id
     (by decide) (by decide),
   c5_dedup_per_league_scan.2.2.1 c1_params [] [] c5_event_id c5_event_id emptyState
     (by decide) (by decide) rfl,
   (c5_dedup_per_league_scan.2.2.2 c1_params emptyState c5_event_noid
     (by decide) (by decide)).1⟩

lemma isDigit_digitChar (k : Nat) (hk : k < 10) : (Nat.digitChar k).isDigit = true := by
  interval_cases k <;> rfl

lemma digitVal_digitChar (k : Nat) (hk : k < 10) : digitVal (Nat.digitChar k) = k := by
  interval_cases k <;> rfl

lemma pad2_digits (n : Nat) : ∀ c ∈ pad2 n, c.isDigit = true := by
  intro c hc
  simp only [pad2, List.mem_cons, List.not_mem_nil, or_false] at hc
  rcases hc with h | h <;> subst h <;>
    exact isDigit_digitChar _ (Nat.mod_lt _ (by norm_num))

lemma pad4_digits (n : Nat) : ∀ c ∈ pad4 n, c.isDigit = true := by
  intro c hc
  simp only [pad4, List.mem_cons, List.not_mem_nil, or_false] at hc
  rcases hc with h | h | h | h <;> subst h <;>
    exact isDigit_digitChar _ (Nat.mod_lt _ (by norm_num))

lemma digitsToNat_pad2 (m : Nat) (hm : m ≤ 99) : digitsToNat (pad2 m) = m := by
  have h1 := digitVal_digitChar (m / 10 % 10) (Nat.mod_lt _ (by norm_num))
  have h2 := digitVal_digitChar (m % 10) (Nat.mod_lt _ (by norm_num))
  simp only [pad2, digitsToNat, List.foldl_cons, List.foldl_nil, h1, h2]
  omega

lemma digitsToNat_pad4 (y : Nat) (hy : y ≤ 9999) : digitsToNat (pad4 y) = y := by
  have h1 := digitVal_digitChar (y / 1000 % 10) (Nat.mod_lt _ (by norm_num))
  have h2 := digitVal_digitChar (y / 100 % 10) (Nat.mod_lt _ (by norm_num))
  have h3 := digitVal_digitChar (y / 10 % 10) (Nat.mod_lt _ (by norm_num))
  have h4 := digitVal_digitChar (y % 10) (Nat.mod_lt _ (by norm_num))
  simp only [pad4, digitsToNat, List.foldl_cons, List.foldl_nil, h1, h2, h3, h4]
  omega

lemma takeDigitsUpTo_full (l : List Char) :
    ∀ (n : Nat) (rest : List Char), l.length = n → (∀ c ∈ l, c.isDigit = true) →
      takeDigitsUpTo n (l ++ rest) = (l, rest) := by
  induction l with
  | nil =>
    intro n rest hn _
    subst hn
    rfl
  | cons c cs ih =>
    intro n rest hn hd
    subst hn
    show takeDigitsUpTo (cs.length + 1) (c :: (cs ++ rest)) = (c :: cs, rest)
    unfold takeDigitsUpTo
    rw [hd c (List.mem_cons_self c cs)]
    rw [ih cs.length rest rfl (fun x hx => hd x (List.mem_cons_of_mem c hx))]
    rfl

lemma parseFixedDigits_pad4 (y : Nat) (rest : List Char) :
    parseFixedDigits 4 (pad4 y ++ rest) = some (digitsToNat (pad4 y), rest) := by
  unfold parseFixedDigits
  rw [takeDigitsUpTo_full (pad4 y) 4 rest rfl (pad4_digits y)]
  rfl

lemma expectChar_same (c : Char) (xs : List Char) : expectChar c (c :: xs) = some xs := by
  unfold expectChar
  dsimp only
  rw [if_pos rfl]

lemma parseDigits12_pad2 (m : Nat) (rest : List Char) :
    parseDigits12 (pad2 m ++ rest) = some (digitsToNat (pad2 m), rest) := by
  unfold parseDigits12
  rw [takeDigitsUpTo_full (pad2 m) 2 rest rfl (pad2_digits m)]
  simp [pad2]

lemma parseYMD_rendered (y m d : Nat) (hy : y ≤ 9999) (hm : m ≤ 99) (hd : d ≤ 99)
    (rest : List Char) :
    parseYMD ((pad4 y ++ '-' :: pad2 m ++ '-' :: pad2 d) ++ rest) =
      some ((y, m, d), rest) := by
  have e1 : (pad4 y ++ '-' :: pad2 m ++ '-' :: pad2 d) ++ rest =
      pad4 y ++ ('-' :: (pad2 m ++ ('-' :: (pad2 d ++ rest)))) := by
    simp [List.append_assoc]
  simp only [parseYMD, e1, parseFixedDigits_pad4, digitsToNat_pad4 y hy, Option.pure_def,
    Option.bind_eq_bind, Option.some_bind, expectChar_same, parseDigits12_pad2,
    digitsToNat_pad2 m hm, digitsToNat_pad2 d hd]

lemma date_str_of_ne_empty (y m d : Nat) : date_str_of (y, m, d) ≠ "" := by
  simp [date_str_of, String.ext_iff]

lemma daysInMonth_le_31 (y m : Nat) : daysInMonth y m ≤ 31 := by
  unfold daysInMonth
  split_ifs <;> norm_num

lemma strptime_rendered (y m d : Nat) (hy1 : 1 ≤ y) (hy : y ≤ 9999) (hm1 : 1 ≤ m)
    (hm : m ≤ 12) (hd1 : 1 ≤ d) (hdm : d ≤ daysInMonth y m) :
    strptime_ymd_time true (date_str_of (y, m, d) ++ " " ++ "00:00:00") =
      some ⟨y, m, d, 0, 0, 0⟩ := by
  have hdata : (date_str_of (y, m, d) ++ " " ++ "00:00:00").data =
      (pad4 y ++ '-' :: pad2 m ++ '-' :: pad2 d) ++
        (' ' :: '0' :: '0' :: ':' :: '0' :: '0' :: ':' :: '0' :: '0' :: []) := by
    show ((pad4 y ++ '-' :: pad2 m ++ '-' :: pad2 d) ++ ' ' :: []) ++
        ('0' :: '0' :: ':' :: '0' :: '0' :: ':' :: '0' :: '0' :: []) = _
    simp [List.append_assoc]
  have hval : validDT y m d 0 0 0 = true := by
    unfold validDT
    rw [decide_eq_true_eq]
    exact ⟨hy1, hm1, hm, hd1, hdm, by norm_num, by norm_num, by norm_num⟩
  have hymd := parseYMD_rendered y m d hy (le_trans hm (by norm_num))
    (le_trans hdm (le_trans (daysInMonth_le_31 y m) (by norm_num)))
    (' ' :: '0' :: '0' :: ':' :: '0' :: '0' :: ':' :: '0' :: '0' :: [])
  have hp1 : parseDigits12 ('0' :: '0' :: ':' :: '0' :: '0' :: ':' :: '0' :: '0' :: []) =
      some (0, ':' :: '0' :: '0' :: ':' :: '0' :: '0' :: []) := rfl
  have hp2 : parseDigits12 ('0' :: '0' :: ':' :: '0' :: '0' :: []) =
      some (0, ':' :: '0' :: '0' :: []) := rfl
  have hp3 : parseDigits12 ('0' :: '0' :: []) = some (0, []) := rfl
  simp only [strptime_ymd_time, hdata, hymd, Option.pure_def, Option.bind_eq_bind,
    Option.some_bind, expectChar_same, hp1, hp2, hp3, hval, List.isEmpty_nil,
    Bool.and_self, if_true, ite_true]

/-- C9: parse_event_dt_utc (i) returns no instant exactly when the date
string is absent/empty or neither the seconds format nor the minutes format
parses the combined string; (ii) tries the seconds format first, so a
seconds-format success is the returned instant; (iii) treats an absent time
string exactly like the literal time 00:00:00; (iv) on every rendered valid
calendar date with the time absent, returns midnight of that date. -/
theorem c9_parse_kickoff :
    (∀ d t : Option String, parse_event_dt_utc d t = none ↔
      (d.getD "" = "" ∨
        (strptime_ymd_time true (d.getD "" ++ " " ++ eff_time_str t) = none ∧
         strptime_ymd_time false (d.getD "" ++ " " ++ eff_time_str t) = none))) ∧
    (∀ (d t : Option String) (dt : DT), d.getD "" ≠ "" →
      strptime_ymd_time true (d.getD "" ++ " " ++ eff_time_str t) = some dt →
      parse_event_dt_utc d t = some dt) ∧
    (∀ d : Option String, parse_event_dt_utc d none = parse_event_dt_utc d (some "00:00:00")) ∧
    (∀ y m dd : Nat, 1 ≤ y → y ≤ 9999 → 1 ≤ m → m ≤ 12 → 1 ≤ dd → dd ≤ daysInMonth y m →
      parse_event_dt_utc (some (date_str_of (y, m, dd))) none =
        some ⟨y, m, dd, 0, 0, 0⟩) := by
  refine ⟨?_, ?_, ?_, ?_⟩
  · intro d t
    unfold parse_event_dt_utc eff_time_str
    by_cases hd : d.getD "" = ""
    · rw [if_pos hd]
      simp [hd]
    · rw [if_neg hd]
      cases hcase : strptime_ymd_time true
        (d.getD "" ++ " " ++ (if t.getD "" = "" then "00:00:00" else t.getD "")) with
      | some dt => simp [hcase, hd]
      | none => simp [hcase, hd]
  · intro d t dt hne hs
    unfold parse_event_dt_utc
    rw [if_neg hne]
    dsimp only
    unfold eff_time_str at hs
    rw [hs]
  · intro d
    rfl
  · intro y m dd hy1 hy hm1 hm hd1 hdm
    show (if date_str_of (y, m, dd) = "" then none
      else match strptime_ymd_time true (date_str_of (y, m, dd) ++ " " ++ "00:00:00") with
        | some dt => some dt
        | none => strptime_ymd_time false (date_str_of (y, m, dd) ++ " " ++ "00:00:00")) =
      some ⟨y, m, dd, 0, 0, 0⟩
    rw [if_neg (date_str_of_ne_empty y m dd), strptime_rendered y m dd hy1 hy hm1 hm hd1 hdm]

/-- C9 witness: the date 2025-01-03 with the time absent parses to midnight
of that date, and a seconds-format success is returned as is. -/
theorem c9_parse_kickoff_witness :
    parse_event_dt_utc (some (date_str_of (2025, 1, 3))) none =
      some ⟨2025, 1, 3, 0, 0, 0⟩ ∧
    parse_event_dt_utc (some "2025-01-03") (some "18:00:00") =
      some ⟨2025, 1, 3, 18, 0, 0⟩ :=
  ⟨c9_parse_kickoff.2.2.2 2025 1 3 (by decide) (by decide) (by decide) (by decide)
    (by decide) (by decide),
   c9_parse_kickoff.2.1 (some "2025-01-03") (some "18:00:00") ⟨2025, 1, 3, 18, 0, 0⟩
    (by decide) (by decide)⟩

end RunDaily
